import Mathlib

/-!
Shallow embedding of the decode/execute core of ps3dprintd
(src/src/gcode/mod.rs): the print-job state machine `State`, the decoder
worker's message handling (`DecoderThread.handle_msg`, `DecoderThread.next`,
one step of `decoder_loop`), one step of `executor_loop`, and the bounded
Decoder→Executor channel created in `start`.

Rust `VecDeque<Action>` is embedded as `List`; a Rust panic (process/worker
abort via `panic!` or `.unwrap()`) is the `panicked` outcome, kept distinct
from a recoverable `Result::Err`, which is the `err` outcome. The `Action`
type is opaque to all of this code, so it stays a type parameter `α`.

The decoder engine (src/gcode/decoder.rs), the executor's motor driver
(src/gcode/executor.rs) and the comms message types are not among the
sources; they are abstracted as parameters or modelled from the spec where
noted on the individual definitions.
-/

namespace Ps3d

/-- Rust panic sites occurring in src/src/gcode/mod.rs, one constructor per
distinct abort. The first five carry the literal `panic!` message of
`State::print`, `State::play`, `State::pause` and `State::printing_state_mut`;
`unwrapOnNone` is an `Option::unwrap` on `None` (the
`buf.pop_front().unwrap()` in `DecoderThread::next` and the
`printing_state.as_mut().unwrap()` in `printing_state_mut`); `unwrapOnErr`
is a `Result::unwrap` on `Err` (the `handle_msg(m).unwrap()` in
`decoder_loop` and the `exec.exec(a).unwrap()` in `executor_loop`). -/
inductive PanicMsg where
  | cantPrintAlreadyPrinting
  | cantPrintIsPaused
  | cantPlayIsStopped
  | cantPauseIsStopped
  | cantReturnStateIsStopped
  | unwrapOnNone
  | unwrapOnErr
deriving DecidableEq, Repr

/-- Outcome of a Rust computation that cannot return a recoverable error:
either a normal value or a process-aborting panic. -/
inductive PanicOr (α : Type) where
  | panicked : PanicMsg → PanicOr α
  | ok : α → PanicOr α
deriving DecidableEq, Repr

/-- Outcome of `DecoderThread::handle_msg`, whose Rust signature is
`fn handle_msg(&mut self, msg) -> Result<()>`: a normal return with the
updated receiver, a recoverable `Err` together with the receiver as the
early `?`-return left it, or a panic. -/
inductive HandleResult (ε σ : Type) where
  | ok : σ → HandleResult ε σ
  | err : ε → σ → HandleResult ε σ
  | panicked : PanicMsg → HandleResult ε σ
deriving DecidableEq, Repr

/-- enum InnerState (src/src/gcode/mod.rs:34-38). -/
inductive InnerState where
  | Printing
  | Paused
  | Stopped
deriving DecidableEq, Repr

/-- struct PrintingState (src/src/gcode/mod.rs:30-32); `buf: VecDeque<Action>`
becomes a `List`, front at the head. -/
structure PrintingState (α : Type) where
  buf : List α
deriving DecidableEq, Repr

/-- struct State (src/src/gcode/mod.rs:40-43). -/
structure State (α : Type) where
  state : InnerState
  printing_state : Option (PrintingState α)
deriving DecidableEq, Repr

/-- State::new (src/src/gcode/mod.rs:46-51). -/
def State.new {α : Type} : State α :=
  { state := .Stopped, printing_state := none }

/-- State::print (src/src/gcode/mod.rs:52-61); panics unless Stopped. -/
def State.print {α : Type} (s : State α) (actions : List α) :
    PanicOr (State α) :=
  match s.state with
  | .Printing => .panicked .cantPrintAlreadyPrinting
  | .Paused => .panicked .cantPrintIsPaused
  | .Stopped =>
      .ok { state := .Printing, printing_state := some { buf := actions } }

/-- State::stop (src/src/gcode/mod.rs:63-66); never fails. -/
def State.stop {α : Type} (_s : State α) : State α :=
  { state := .Stopped, printing_state := none }

/-- State::play (src/src/gcode/mod.rs:68-74); panics when Stopped. -/
def State.play {α : Type} (s : State α) : PanicOr (State α) :=
  match s.state with
  | .Printing => .ok s
  | .Paused => .ok { s with state := .Printing }
  | .Stopped => .panicked .cantPlayIsStopped

/-- State::pause (src/src/gcode/mod.rs:76-82); panics when Stopped. -/
def State.pause {α : Type} (s : State α) : PanicOr (State α) :=
  match s.state with
  | .Printing => .ok { s with state := .Paused }
  | .Paused => .ok s
  | .Stopped => .panicked .cantPauseIsStopped

/-- State::is_printing (src/src/gcode/mod.rs:84-89); pure query. -/
def State.is_printing {α : Type} (s : State α) : Bool :=
  match s.state with
  | .Printing => true
  | _ => false

/-- State::printing_state_mut (src/src/gcode/mod.rs:91-97); panics when
Stopped, and its `as_mut().unwrap()` panics when the option is `None`. -/
def State.printing_state_mut {α : Type} (s : State α) :
    PanicOr (PrintingState α) :=
  match s.state with
  | .Printing =>
      match s.printing_state with
      | some ps => .ok ps
      | none => .panicked .unwrapOnNone
  | .Paused =>
      match s.printing_state with
      | some ps => .ok ps
      | none => .panicked .unwrapOnNone
  | .Stopped => .panicked .cantReturnStateIsStopped

/-- struct DecoderThread (src/src/gcode/mod.rs:100-103). The decoder engine
field has the abstract type `δ` because src/gcode/decoder.rs is not among
the sources; nothing in mod.rs inspects it. -/
structure DecoderThread (δ α : Type) where
  decoder : δ
  state : State α
deriving DecidableEq, Repr

/-- DecoderThread::new (src/src/gcode/mod.rs:106-111). -/
def DecoderThread.new {δ α : Type} (decoder : δ) : DecoderThread δ α :=
  { decoder := decoder, state := State.new }

/-- DecoderThread::next (src/src/gcode/mod.rs:137-147): take the printing
state (panics when Stopped), pop the front of the buffer (`.unwrap()`
panics when the buffer is empty), and if the buffer became empty call
`self.state.stop()`. -/
def DecoderThread.next {δ α : Type} (t : DecoderThread δ α) :
    PanicOr (α × DecoderThread δ α) :=
  match t.state.printing_state_mut with
  | .panicked m => .panicked m
  | .ok ps =>
      match ps.buf with
      | [] => .panicked .unwrapOnNone
      | a :: rest =>
          let s : State α :=
            { t.state with printing_state := some { buf := rest } }
          if rest.isEmpty then .ok (a, { t with state := s.stop })
          else .ok (a, { t with state := s })

/-- Repeated invocation of `DecoderThread::next`, n times, collecting the
returned Actions in order; this is the sequence of Actions the decoder
worker offers to the executor channel while printing (its `select!` send arm
evaluates `data.next()` once per selected send). -/
def DecoderThread.drainN {δ α : Type} :
    Nat → DecoderThread δ α → PanicOr (List α × DecoderThread δ α)
  | 0, t => .ok ([], t)
  | n + 1, t =>
      match t.next with
      | .panicked m => .panicked m
      | .ok (a, t1) =>
          match DecoderThread.drainN n t1 with
          | .panicked m => .panicked m
          | .ok (rest, t2) => .ok (a :: rest, t2)

/-- Modelled from the spec: the comms module holding `DecoderComms` is not
among the sources. Per the spec's inbound control surface, the decoder
worker receives SubmitJob (here `Print`, carrying the submitted job already
read and parsed into instructions of the abstract type `γ`, i.e. the result
of the `read_to_string` + `gcode::parse` prelude of `handle_msg`), Stop,
Resume (`Play` in mod.rs) and Pause. -/
inductive DecoderComms (γ : Type) where
  | Print : List γ → DecoderComms γ
  | Stop : DecoderComms γ
  | Play : DecoderComms γ
  | Pause : DecoderComms γ
deriving DecidableEq, Repr

/-- Modelled from the spec: `ControlComms<T>` (comms module, not among the
sources) is the envelope wrapping either a domain message or the shutdown
signal, used on every inter-worker channel. -/
inductive ControlComms (τ : Type) where
  | Msg : τ → ControlComms τ
  | Exit : ControlComms τ
deriving DecidableEq, Repr

/-- The decode loop inside the `DecoderComms::Print` arm of `handle_msg`
(src/src/gcode/mod.rs:119-124): fold `decoder.decode` over the parsed
instructions, extending the action buffer with every `Some` result; the
first `Err` aborts the loop via `?`, leaving the decoder engine at the
state `δ` it had reached (carried in the error so the caller can keep the
partially advanced engine, as the Rust `&mut self` does). `decode` itself
is a parameter because src/gcode/decoder.rs is not among the sources; its
shape `δ → γ → Except ε (δ × Option (List α))` is the signature
`fn decode(&mut self, code) -> Result<Option<VecDeque<Action>>>`. -/
def decodeAll {δ γ ε α : Type}
    (decode : δ → γ → Except ε (δ × Option (List α))) :
    δ → List γ → List α → Except (ε × δ) (δ × List α)
  | d, [], acc => .ok (d, acc)
  | d, c :: cs, acc =>
      match decode d c with
      | .error e => .error (e, d)
      | .ok (d1, none) => decodeAll decode d1 cs acc
      | .ok (d1, some dq) => decodeAll decode d1 cs (acc ++ dq)

/-- DecoderThread::handle_msg (src/src/gcode/mod.rs:113-135), parameterised
by the decoder engine's `decode` and `reset` (src/gcode/decoder.rs is not
among the sources). `Print`: decode the whole job eagerly, then
`state.print`; a decode failure is returned as `Err` before `state.print`
is ever reached. `Stop`: `state.stop()` then `decoder.reset()`.
`Play`/`Pause`: delegate to the state machine (which panics when Stopped). -/
def DecoderThread.handle_msg {δ γ ε α : Type}
    (decode : δ → γ → Except ε (δ × Option (List α))) (reset : δ → δ)
    (t : DecoderThread δ α) (msg : DecoderComms γ) :
    HandleResult ε (DecoderThread δ α) :=
  match msg with
  | .Print codes =>
      match decodeAll decode t.decoder codes [] with
      | .error (e, d1) => .err e { t with decoder := d1 }
      | .ok (d1, actions) =>
          match t.state.print actions with
          | .panicked m => .panicked m
          | .ok s1 => .ok { decoder := d1, state := s1 }
  | .Stop => .ok { decoder := reset t.decoder, state := t.state.stop }
  | .Play =>
      match t.state.play with
      | .panicked m => .panicked m
      | .ok s1 => .ok { t with state := s1 }
  | .Pause =>
      match t.state.pause with
      | .panicked m => .panicked m
      | .ok s1 => .ok { t with state := s1 }

/-- One iteration of `decoder_loop` servicing an incoming control message
(src/src/gcode/mod.rs:159-171; this is the not-printing branch, and
identically the `recv` arm of the printing `select!`): `Exit` breaks the
loop (`ok none`); on `Msg m` the loop calls `data.handle_msg(m).unwrap()`
(the `FIXME do smth with result` lines), so a recoverable `Err` from
`handle_msg` panics the decoder worker. -/
def decoder_step {δ γ ε α : Type}
    (decode : δ → γ → Except ε (δ × Option (List α))) (reset : δ → δ)
    (t : DecoderThread δ α) (incoming : ControlComms (DecoderComms γ)) :
    PanicOr (Option (DecoderThread δ α)) :=
  match incoming with
  | .Exit => .ok none
  | .Msg m =>
      match t.handle_msg decode reset m with
      | .ok t1 => .ok (some t1)
      | .err _ _ => .panicked .unwrapOnErr
      | .panicked p => .panicked p

/-- One iteration of `executor_loop` (src/src/gcode/mod.rs:182-188):
`Exit` breaks the loop (`ok false`); on `Msg a` the loop calls
`exec.exec(a).unwrap()` (the `FIXME do something with result` line), so a
motor failure reported by `Executor::exec` panics the executor worker.
`ex` abstracts `Executor::exec` — modelled from the spec, since
src/gcode/executor.rs is not among the sources: it forwards the Action to
the motor subsystem, blocks for its completion result, and returns `Err`
exactly when the motor subsystem reports failure (`μ` is the motor error
type). `ok true` means the loop continues to the next message. -/
def executor_step {α μ : Type} (ex : α → Except μ Unit)
    (incoming : ControlComms α) : PanicOr Bool :=
  match incoming with
  | .Exit => .ok false
  | .Msg a =>
      match ex a with
      | .ok _ => .ok true
      | .error _ => .panicked .unwrapOnErr

/-- The Decoder→Executor channel capacity fixed in `start`
(src/src/gcode/mod.rs:197): `channel::bounded(16)`. -/
def executor_channel_capacity : Nat := 16

/-- Model of a crossbeam bounded channel (external crate): a FIFO buffer
that can hold at most `capacity` in-flight messages. -/
structure BoundedChannel (α : Type) where
  capacity : Nat
  buffer : List α
deriving DecidableEq, Repr

/-- Bounded-channel send: enqueue when the buffer is below capacity,
otherwise refuse (`none`), which for the blocking `send` used by
`decoder_loop` means the decoder worker blocks until the executor drains. -/
def BoundedChannel.send {α : Type} (ch : BoundedChannel α) (a : α) :
    Option (BoundedChannel α) :=
  if ch.buffer.length < ch.capacity then
    some { ch with buffer := ch.buffer ++ [a] }
  else none

/-- Bounded-channel receive: dequeue the oldest message when present. -/
def BoundedChannel.recv {α : Type} (ch : BoundedChannel α) :
    Option (α × BoundedChannel α) :=
  match ch.buffer with
  | [] => none
  | a :: rest => some (a, { ch with buffer := rest })

/-- The Decoder→Executor channel as created by `start`
(src/src/gcode/mod.rs:191-202): bounded at 16, initially empty. The thread
spawning around it is not embeddable; only the channel construction is. -/
def start_executor_channel (α : Type) : BoundedChannel α :=
  { capacity := executor_channel_capacity, buffer := [] }

/-- Unfolding step of `drainN` on a buffer of at least two Actions: the head
is popped and delivery continues on the tail. -/
theorem drainN_cons {δ α : Type} (d : δ) (st : InnerState)
    (hst : st = .Printing ∨ st = .Paused) (a b : α) (rs : List α) :
    DecoderThread.drainN (a :: b :: rs).length
        ⟨d, { state := st, printing_state := some { buf := a :: b :: rs } }⟩ =
      match DecoderThread.drainN (b :: rs).length
          ⟨d, { state := st, printing_state := some { buf := b :: rs } }⟩ with
      | .panicked m => .panicked m
      | .ok (as, t2) => .ok (a :: as, t2) := by
  rcases hst with h | h <;> subst h <;> rfl

/-- Draining a non-empty buffer from a Printing or Paused state via repeated
`DecoderThread::next` returns exactly the buffer, in order, and leaves the
machine in the freshly stopped state. -/
theorem drainN_all {δ α : Type} (d : δ) (buf : List α) :
    ∀ st : InnerState, buf ≠ [] → (st = .Printing ∨ st = .Paused) →
      DecoderThread.drainN buf.length
          ⟨d, { state := st, printing_state := some { buf := buf } }⟩ =
        .ok (buf, ⟨d, State.new⟩) := by
  induction buf with
  | nil => intro st h _; exact absurd rfl h
  | cons a rest ih =>
    intro st _ hst
    cases rest with
    | nil =>
        rcases hst with h | h <;> subst h <;>
          simp [DecoderThread.drainN, DecoderThread.next,
            State.printing_state_mut, State.stop, State.new]
    | cons b rs =>
        have h3 := ih st (by simp) hst
        rw [drainN_cons d st hst a b rs, h3]

/-- C1: a job of N Actions installed via start (`State::print` from the
initial Stopped state) and consumed without an intervening Stop yields,
under repeated `dequeue_next` (`DecoderThread::next`), exactly those N
Actions, exactly once, in the original decode order, ending with the
machine auto-stopped. -/
theorem decode_order_exact {δ α : Type} (d : δ) (q : List α) (h : q ≠ []) :
    State.print State.new q =
      .ok { state := .Printing, printing_state := some { buf := q } } ∧
    DecoderThread.drainN q.length
        ⟨d, { state := .Printing, printing_state := some { buf := q } }⟩ =
      .ok (q, ⟨d, State.new⟩) :=
  ⟨rfl, drainN_all d q .Printing h (Or.inl rfl)⟩

/-- Witness for C1: the three-Action job [1, 2, 3] is delivered as
1, then 2, then 3, and the machine ends Stopped. -/
theorem decode_order_exact_witness :
    State.print State.new [1, 2, 3] =
      .ok { state := .Printing, printing_state := some { buf := [1, 2, 3] } } ∧
    DecoderThread.drainN ([1, 2, 3] : List Nat).length
        ⟨(), { state := .Printing, printing_state := some { buf := [1, 2, 3] } }⟩ =
      .ok ([1, 2, 3], ⟨(), State.new⟩) :=
  decode_order_exact () [1, 2, 3] (by decide)

/-- Characterisation of a successful `DecoderThread::next`: it only returns
normally from Printing or Paused, the returned Action was the head of the
pending buffer, and the machine either auto-stopped (tail empty) or kept
the tail as the new buffer. -/
theorem next_ok_cases {δ α : Type} {t t1 : DecoderThread δ α} {a : α}
    (h : t.next = .ok (a, t1)) :
    (t.state.state = .Printing ∨ t.state.state = .Paused) ∧
    ∃ rest, t.state.printing_state = some { buf := a :: rest } ∧
      ((rest = [] ∧ t1.state = State.new) ∨
        (rest ≠ [] ∧ t1.state =
          { t.state with printing_state := some { buf := rest } })) := by
  obtain ⟨d, phase, pstate⟩ := t
  unfold DecoderThread.next State.printing_state_mut at h
  cases phase with
  | Stopped => simp at h
  | Printing =>
      rcases pstate with _ | ⟨buf⟩
      · simp at h
      · rcases buf with _ | ⟨x, rest⟩
        · simp at h
        · rcases rest with _ | ⟨y, rs⟩
          · simp only [List.isEmpty_nil, if_true, PanicOr.ok.injEq,
              Prod.mk.injEq] at h
            obtain ⟨rfl, rfl⟩ := h
            exact ⟨Or.inl rfl, [], rfl, Or.inl ⟨rfl, rfl⟩⟩
          · simp only [List.isEmpty_cons, Bool.false_eq_true, if_false,
              PanicOr.ok.injEq, Prod.mk.injEq] at h
            obtain ⟨rfl, rfl⟩ := h
            exact ⟨Or.inl rfl, y :: rs, rfl, Or.inr ⟨by simp, rfl⟩⟩
  | Paused =>
      rcases pstate with _ | ⟨buf⟩
      · simp at h
      · rcases buf with _ | ⟨x, rest⟩
        · simp at h
        · rcases rest with _ | ⟨y, rs⟩
          · simp only [List.isEmpty_nil, if_true, PanicOr.ok.injEq,
              Prod.mk.injEq] at h
            obtain ⟨rfl, rfl⟩ := h
            exact ⟨Or.inr rfl, [], rfl, Or.inl ⟨rfl, rfl⟩⟩
          · simp only [List.isEmpty_cons, Bool.false_eq_true, if_false,
              PanicOr.ok.injEq, Prod.mk.injEq] at h
            obtain ⟨rfl, rfl⟩ := h
            exact ⟨Or.inr rfl, y :: rs, rfl, Or.inr ⟨by simp, rfl⟩⟩

/-- The spec's structural invariant on `State`:
`pending.is_some() ⇔ phase ∈ {Printing, Paused}`. -/
def StateInv {α : Type} (s : State α) : Prop :=
  s.printing_state.isSome = true ↔
    (s.state = .Printing ∨ s.state = .Paused)

/-- The stronger queue invariant discussed in C10: whenever the phase is not
Stopped, the pending queue exists and is non-empty. -/
def QueueNonempty {α : Type} (s : State α) : Prop :=
  s.state ≠ .Stopped → ∃ ps, s.printing_state = some ps ∧ ps.buf ≠ []

/-- C5: every operation of the print-job state machine preserves the
invariant `pending.is_some ⇔ phase ∈ {Printing, Paused}`, starting from the
initial state Stopped-with-no-queue; `is_printing` is a pure query that
does not touch the state at all, so it preserves it trivially. -/
theorem state_machine_invariant {α : Type} :
    StateInv (State.new : State α) ∧
    (∀ (s s1 : State α) (q : List α), s.print q = .ok s1 → StateInv s1) ∧
    (∀ s : State α, StateInv s.stop) ∧
    (∀ s s1 : State α, StateInv s → s.play = .ok s1 → StateInv s1) ∧
    (∀ s s1 : State α, StateInv s → s.pause = .ok s1 → StateInv s1) ∧
    (∀ (t t1 : DecoderThread Unit α) (a : α), StateInv t.state →
      t.next = .ok (a, t1) → StateInv t1.state) := by
  refine ⟨by simp [StateInv, State.new], ?_, ?_, ?_, ?_, ?_⟩
  · intro s s1 q h
    unfold State.print at h
    split at h <;> cases h
    simp [StateInv]
  · intro s
    simp [StateInv, State.stop]
  · intro s s1 hInv h
    unfold State.play at h
    split at h <;> rename_i hs <;> cases h
    · exact hInv
    · simp_all [StateInv]
  · intro s s1 hInv h
    unfold State.pause at h
    split at h <;> rename_i hs <;> cases h
    · simp_all [StateInv]
    · exact hInv
  · intro t t1 a hInv h
    obtain ⟨hphase, rest, hps, hcase⟩ := next_ok_cases h
    rcases hcase with ⟨_, h1⟩ | ⟨_, h1⟩
    · rw [h1]
      simp [StateInv, State.new]
    · rw [h1]
      simpa [StateInv] using hphase

/-- Witness for C5: the invariant holds on the state produced by starting
the one-Action job [1] from the initial state. -/
theorem state_machine_invariant_witness :
    StateInv
      ({ state := .Printing, printing_state := some { buf := [1] } } :
        State Nat) :=
  (state_machine_invariant (α := Nat)).2.1 State.new _ [1] rfl

/-- C10: starting the empty job from Stopped puts the machine in Printing
with an empty pending queue (no auto-transition to Stopped), from which
`DecoderThread::next` hits the `pop_front().unwrap()` panic branch that the
source comments as unreachable; the non-empty-queue invariant is preserved
by stop, play, pause and next, but is not established by `State::print` for
the empty input. -/
theorem empty_job_reaches_pop_panic :
    State.print (State.new : State Nat) [] =
      .ok { state := .Printing, printing_state := some { buf := [] } } ∧
    DecoderThread.next
        (⟨(), { state := .Printing, printing_state := some { buf := [] } }⟩ :
          DecoderThread Unit Nat) = .panicked .unwrapOnNone ∧
    ¬ QueueNonempty
        ({ state := .Printing, printing_state := some { buf := [] } } :
          State Nat) ∧
    (∀ s : State Nat, QueueNonempty s.stop) ∧
    (∀ s s1 : State Nat, QueueNonempty s → s.play = .ok s1 →
      QueueNonempty s1) ∧
    (∀ s s1 : State Nat, QueueNonempty s → s.pause = .ok s1 →
      QueueNonempty s1) ∧
    (∀ (t t1 : DecoderThread Unit Nat) (a : Nat), QueueNonempty t.state →
      t.next = .ok (a, t1) → QueueNonempty t1.state) := by
  refine ⟨rfl, rfl, ?_, ?_, ?_, ?_, ?_⟩
  · intro hqn
    obtain ⟨ps, hps, hne⟩ := hqn (by simp)
    cases hps
    exact hne rfl
  · intro s
    simp [QueueNonempty, State.stop]
  · intro s s1 hqn h
    unfold State.play at h
    split at h <;> rename_i hs <;> cases h
    · exact hqn
    · intro _
      obtain ⟨ps, hps, hne⟩ := hqn (by simp [hs])
      exact ⟨ps, hps, hne⟩
  · intro s s1 hqn h
    unfold State.pause at h
    split at h <;> rename_i hs <;> cases h
    · intro _
      obtain ⟨ps, hps, hne⟩ := hqn (by simp [hs])
      exact ⟨ps, hps, hne⟩
    · exact hqn
  · intro t t1 a hqn h
    obtain ⟨hphase, rest, hps, hcase⟩ := next_ok_cases h
    rcases hcase with ⟨_, h1⟩ | ⟨hne, h1⟩
    · rw [h1]
      simp [QueueNonempty, State.new]
    · rw [h1]
      intro _
      exact ⟨{ buf := rest }, rfl, hne⟩

/-- Witness for C10: the preservation clause for play, applied to a
concrete Paused state with a one-Action queue. -/
theorem empty_job_reaches_pop_panic_witness :
    QueueNonempty
      ({ state := .Printing, printing_state := some { buf := [2] } } :
        State Nat) :=
  empty_job_reaches_pop_panic.2.2.2.2.1
    { state := .Paused, printing_state := some { buf := [2] } } _
    (fun _ => ⟨{ buf := [2] }, rfl, by simp⟩) rfl

/-- C7: stop() succeeds from every phase, always leaving phase = Stopped with
the pending queue cleared, and stop is idempotent: stopping twice yields the
same state as stopping once. -/
theorem stop_always_stops_and_idempotent {α : Type} (s : State α) :
    (s.stop).state = .Stopped ∧ (s.stop).printing_state = none ∧
      (s.stop).stop = s.stop := by
  refine ⟨rfl, rfl, rfl⟩

/-- Witness for C7: stop applied to a concrete mid-print state. -/
theorem stop_always_stops_and_idempotent_witness :
    (State.stop { state := .Printing, printing_state := some { buf := [1, 2] } }
        : State Nat).state = .Stopped ∧
      (State.stop { state := .Printing, printing_state := some { buf := [1, 2] } }
        : State Nat).printing_state = none ∧
      (State.stop { state := .Printing, printing_state := some { buf := [1, 2] } }
        : State Nat).stop =
        State.stop { state := .Printing, printing_state := some { buf := [1, 2] } } :=
  stop_always_stops_and_idempotent
    { state := .Printing, printing_state := some { buf := [1, 2] } }

/-- C2 (evidence of the code bug): `State::print` from the initial Stopped
state transitions to Printing and installs the queue, as claimed; but
called while Printing or Paused it panics (aborting the process) instead of
failing with a recoverable InvalidTransition error. -/
theorem print_behavior_and_panics :
    State.print (State.new : State Nat) [1, 2] =
      .ok { state := .Printing, printing_state := some { buf := [1, 2] } } ∧
    State.print
        ({ state := .Printing, printing_state := some { buf := [0] } } :
          State Nat) [1] = .panicked .cantPrintAlreadyPrinting ∧
    State.print
        ({ state := .Paused, printing_state := some { buf := [0] } } :
          State Nat) [1] = .panicked .cantPrintIsPaused :=
  ⟨rfl, rfl, rfl⟩

/-- C3 (evidence of the code bug): `DecoderThread::next` while Printing or
Paused pops the head of the queue and auto-stops when the queue empties, as
claimed; but called while Stopped it panics `can't return state, is
stopped` (aborting the worker) instead of failing with an InvalidTransition
error. -/
theorem dequeue_next_behavior_and_stopped_panics :
    DecoderThread.next
        (⟨(), { state := .Printing, printing_state := some { buf := [1, 2] } }⟩ :
          DecoderThread Unit Nat) =
      .ok (1, ⟨(), { state := .Printing,
                     printing_state := some { buf := [2] } }⟩) ∧
    DecoderThread.next
        (⟨(), { state := .Paused, printing_state := some { buf := [1, 2] } }⟩ :
          DecoderThread Unit Nat) =
      .ok (1, ⟨(), { state := .Paused,
                     printing_state := some { buf := [2] } }⟩) ∧
    DecoderThread.next
        (⟨(), { state := .Printing, printing_state := some { buf := [9] } }⟩ :
          DecoderThread Unit Nat) = .ok (9, ⟨(), State.new⟩) ∧
    DecoderThread.next (⟨(), State.new⟩ : DecoderThread Unit Nat) =
      .panicked .cantReturnStateIsStopped :=
  ⟨rfl, rfl, rfl, rfl⟩

/-- C4 (evidence of the code bug): whenever `Executor::exec` reports a motor
failure for the delivered Action, the `exec.exec(a).unwrap()` in
`executor_loop` panics, killing the executor worker, instead of escalating
the MotorError and keeping the loop alive. -/
theorem executor_crashes_on_motor_failure {α μ : Type}
    (ex : α → Except μ Unit) (a : α) (e : μ) (h : ex a = .error e) :
    executor_step ex (.Msg a) = .panicked .unwrapOnErr := by
  simp [executor_step, h]

/-- Witness for C4: a motor subsystem that fails on every Action makes the
executor worker panic on the first delivered Action. -/
theorem executor_crashes_on_motor_failure_witness :
    executor_step (fun _ : Nat => (Except.error () : Except Unit Unit))
      (.Msg 0) = .panicked .unwrapOnErr :=
  executor_crashes_on_motor_failure _ 0 () rfl

/-- C6 (evidence of the code bug): `State::play` is a no-op while Printing
and maps Paused to Printing, and `State::pause` is a no-op while Paused and
maps Printing to Paused, as claimed; but while Stopped each panics
(killing the worker) instead of failing with a recoverable InvalidTransition
error. -/
theorem play_pause_behavior_and_stopped_panics :
    State.play
        ({ state := .Printing, printing_state := some { buf := [1] } } :
          State Nat) =
      .ok { state := .Printing, printing_state := some { buf := [1] } } ∧
    State.play
        ({ state := .Paused, printing_state := some { buf := [1] } } :
          State Nat) =
      .ok { state := .Printing, printing_state := some { buf := [1] } } ∧
    State.play (State.new : State Nat) = .panicked .cantPlayIsStopped ∧
    State.pause
        ({ state := .Paused, printing_state := some { buf := [1] } } :
          State Nat) =
      .ok { state := .Paused, printing_state := some { buf := [1] } } ∧
    State.pause
        ({ state := .Printing, printing_state := some { buf := [1] } } :
          State Nat) =
      .ok { state := .Paused, printing_state := some { buf := [1] } } ∧
    State.pause (State.new : State Nat) = .panicked .cantPauseIsStopped :=
  ⟨rfl, rfl, rfl, rfl, rfl, rfl⟩

/-- C8 (evidence of the code bug): when decoding a submitted job fails,
`handle_msg` returns the DecodeError as `Err` before `State::print` is ever
reached, leaving the state machine's phase and pending queue exactly as they
were — but `decoder_loop` then calls `.unwrap()` on that `Err`, so the
decoder worker panics and the error never reaches the caller of SubmitJob. -/
theorem decode_error_keeps_state_but_crashes_worker {δ γ ε α : Type}
    (decode : δ → γ → Except ε (δ × Option (List α))) (reset : δ → δ)
    (t : DecoderThread δ α) (codes : List γ) (e : ε) (d1 : δ)
    (h : decodeAll decode t.decoder codes [] = .error (e, d1)) :
    t.handle_msg decode reset (.Print codes) =
      .err e { t with decoder := d1 } ∧
    ({ t with decoder := d1 } : DecoderThread δ α).state = t.state ∧
    decoder_step decode reset t (.Msg (.Print codes)) =
      .panicked .unwrapOnErr := by
  refine ⟨?_, rfl, ?_⟩
  · simp [DecoderThread.handle_msg, h]
  · simp [decoder_step, DecoderThread.handle_msg, h]

/-- Witness for C8: a decoder that rejects every instruction leaves the
state machine untouched, and the worker loop panics on the returned error. -/
theorem decode_error_keeps_state_but_crashes_worker_witness :
    DecoderThread.handle_msg
        (fun (_ : Unit) (_ : Nat) =>
          (Except.error 7 : Except Nat (Unit × Option (List Nat)))) id
        ⟨(), State.new⟩ (.Print [5]) = .err 7 ⟨(), State.new⟩ ∧
    ((⟨(), State.new⟩ : DecoderThread Unit Nat)).state =
      ((⟨(), State.new⟩ : DecoderThread Unit Nat)).state ∧
    decoder_step
        (fun (_ : Unit) (_ : Nat) =>
          (Except.error 7 : Except Nat (Unit × Option (List Nat)))) id
        ⟨(), State.new⟩ (.Msg (.Print [5])) = .panicked .unwrapOnErr :=
  decode_error_keeps_state_but_crashes_worker _ id ⟨(), State.new⟩ [5] 7 ()
    rfl

/-- C9: the Decoder→Executor channel created by `start` is bounded with
fixed capacity 16 and starts empty; on any channel at that capacity a full
buffer refuses the next send (blocking the decoder worker), a successful
send never leaves more than 16 Actions in flight, and after the executor
drains one message a previously full channel accepts a send again. -/
theorem bounded_channel_backpressure {α : Type} (ch : BoundedChannel α)
    (a : α) (hcap : ch.capacity = executor_channel_capacity) :
    (start_executor_channel α).capacity = 16 ∧
    (start_executor_channel α).buffer = [] ∧
    (16 ≤ ch.buffer.length → ch.send a = none) ∧
    (∀ ch1, ch.send a = some ch1 → ch1.buffer.length ≤ 16) ∧
    (∀ b ch1, ch.buffer.length = 16 → ch.recv = some (b, ch1) →
      ∃ ch2, ch1.send a = some ch2) := by
  refine ⟨rfl, rfl, ?_, ?_, ?_⟩
  · intro hlen
    simp [BoundedChannel.send, hcap, executor_channel_capacity]
    omega
  · intro ch1 h
    unfold BoundedChannel.send at h
    rw [hcap] at h
    unfold executor_channel_capacity at h
    split at h
    · cases h
      simp
      omega
    · cases h
  · intro b ch1 hlen h
    unfold BoundedChannel.recv at h
    rcases hbuf : ch.buffer with _ | ⟨x, rest⟩
    · rw [hbuf] at h
      cases h
    · rw [hbuf] at h
      cases h
      have hlt : rest.length < ch.capacity := by
        rw [hcap]
        unfold executor_channel_capacity
        rw [hbuf] at hlen
        simp at hlen
        omega
      refine ⟨{ ch with buffer := rest ++ [a] }, ?_⟩
      unfold BoundedChannel.send
      rw [if_pos hlt]

/-- Witness for C9: the channel `start` creates is itself a capacity-16
channel, and a full one refuses the 17th in-flight Action. -/
theorem bounded_channel_backpressure_witness :
    (start_executor_channel Nat).capacity = 16 ∧
    (start_executor_channel Nat).buffer = [] ∧
    (16 ≤ ((start_executor_channel Nat).buffer).length →
      (start_executor_channel Nat).send 0 = none) ∧
    (∀ ch1, (start_executor_channel Nat).send 0 = some ch1 →
      ch1.buffer.length ≤ 16) ∧
    (∀ b ch1, ((start_executor_channel Nat).buffer).length = 16 →
      (start_executor_channel Nat).recv = some (b, ch1) →
      ∃ ch2, ch1.send 0 = some ch2) :=
  bounded_channel_backpressure (start_executor_channel Nat) 0 rfl

end Ps3d
